import Mathlib

/-!
Verification of the interval library (limit_value.rs, interval_limit.rs,
interval.rs, interval_seq.rs) against its specification.

The Rust code is shallowly embedded: every `def` below mirrors one Rust
function.  Rust's `partial_cmp` is written `pcmp` here; a `panic!` (and an
`unwrap` that can fail) is modelled by returning `none`.  The element type is
instantiated at `Int` (the tests use `i32`), whose `PartialOrd` is the total
order `intPcmp`; the comparator of `IntervalLimit` is additionally kept
generic in the element comparison so that partial element orders can be
discussed.
-/

namespace Intervals

/-- `LimitValue<T>` (limit_value.rs): a concrete bound value or the unbounded
sentinel. -/
inductive LimitValue (α : Type) where
  | limit (v : α)
  | limitless
  deriving DecidableEq

/-- `LimitValue::is_limitless` (limit_value.rs 50-55). -/
def LimitValue.isLimitless {α : Type} : LimitValue α → Bool
  | .limitless => true
  | _ => false

/-- `PartialEq for LimitValue<T>` (limit_value.rs 19-28), parameterized by the
element equality `aeq`. -/
def LimitValue.beqWith {α : Type} (aeq : α → α → Bool) :
    LimitValue α → LimitValue α → Bool
  | .limitless, .limitless => true
  | .limit v, .limit w => aeq v w
  | _, _ => false

/-- `PartialOrd for LimitValue<T>`, i.e. its `partial_cmp`
(limit_value.rs 30-40), parameterized by the element comparison `pc`. -/
def LimitValue.pcmpWith {α : Type} (pc : α → α → Option Ordering) :
    LimitValue α → LimitValue α → Option Ordering
  | .limitless, .limitless => some .eq
  | .limit _, .limitless => some .gt
  | .limitless, .limit _ => some .lt
  | .limit v, .limit w => pc v w

/-- `i32::partial_cmp`: the total order of the element type; always `some`. -/
def intPcmp (a b : Int) : Option Ordering :=
  some (if a < b then .lt else if a = b then .eq else .gt)

/-- `i32::eq`. -/
def intBeq (a b : Int) : Bool := a == b

/-- `LimitValue<i32>::partial_cmp`. -/
def LimitValue.pcmp (a b : LimitValue Int) : Option Ordering :=
  LimitValue.pcmpWith intPcmp a b

/-- `LimitValue<i32>::eq`. -/
def LimitValue.beq (a b : LimitValue Int) : Bool :=
  LimitValue.beqWith intBeq a b

/-- Rust's derived `<` on `LimitValue<i32>` (`partial_cmp == Some(Less)`). -/
def LimitValue.ltB (a b : LimitValue Int) : Bool := a.pcmp b == some .lt

/-- Rust's derived `>` on `LimitValue<i32>` (`partial_cmp == Some(Greater)`). -/
def LimitValue.gtB (a b : LimitValue Int) : Bool := a.pcmp b == some .gt

/-- Rust's derived `<=` on `LimitValue<i32>`. -/
def LimitValue.leB (a b : LimitValue Int) : Bool :=
  match a.pcmp b with
  | some .lt => true
  | some .eq => true
  | _ => false

/-- Rust's derived `>=` on `LimitValue<i32>`. -/
def LimitValue.geB (a b : LimitValue Int) : Bool :=
  match a.pcmp b with
  | some .gt => true
  | some .eq => true
  | _ => false

/-- `IntervalLimit<T>` (interval_limit.rs 6-11): one endpoint of an interval,
with closed/open status and lower/upper side. -/
structure IntervalLimit (α : Type) where
  closed : Bool
  lower : Bool
  value : LimitValue α
  deriving DecidableEq

/-- `IntervalLimit::lower_to_ordering` (interval_limit.rs 82-88). -/
def IntervalLimit.lowerToOrdering {α β : Type} (s : IntervalLimit α) (t f : β) : β :=
  if s.lower then t else f

/-- `IntervalLimit::closed_to_ordering` (interval_limit.rs 90-96). -/
def IntervalLimit.closedToOrdering {α β : Type} (s : IntervalLimit α) (t f : β) : β :=
  if s.closed then t else f

/-- `PartialOrd for IntervalLimit<T>`, i.e. its `partial_cmp`
(interval_limit.rs 19-51), parameterized by the element comparison and
equality. -/
def IntervalLimit.pcmpWith {α : Type} (pc : α → α → Option Ordering)
    (aeq : α → α → Bool) (s o : IntervalLimit α) : Option Ordering :=
  if s.value.isLimitless && o.value.isLimitless then
    if s.lower == o.lower then some .eq
    else s.lowerToOrdering (some .lt) (some .gt)
  else if s.value.isLimitless then
    s.lowerToOrdering (some .lt) (some .gt)
  else if o.value.isLimitless then
    o.lowerToOrdering (some .gt) (some .lt)
  else if LimitValue.beqWith aeq s.value o.value then
    if s.lower && o.lower then
      if s.closed != o.closed then s.closedToOrdering (some .lt) (some .gt)
      else some .eq
    else if !s.lower && !o.lower then
      if s.closed != o.closed then s.closedToOrdering (some .gt) (some .lt)
      else some .eq
    else s.lowerToOrdering (some .lt) (some .gt)
  else LimitValue.pcmpWith pc s.value o.value

/-- `IntervalLimit<i32>::partial_cmp`. -/
def IntervalLimit.pcmp (s o : IntervalLimit Int) : Option Ordering :=
  IntervalLimit.pcmpWith intPcmp intBeq s o

/-- `PartialEq for IntervalLimit<T>` (interval_limit.rs 13-17):
`partial_cmp == Some(Equal)`. -/
def IntervalLimit.beq (s o : IntervalLimit Int) : Bool := s.pcmp o == some .eq

/-- Rust's derived `<=` on `IntervalLimit<i32>`. -/
def IntervalLimit.leB (s o : IntervalLimit Int) : Bool :=
  match s.pcmp o with
  | some .lt => true
  | some .eq => true
  | _ => false

/-- `IntervalLimit::new` (interval_limit.rs 66-72): a limitless endpoint is
forced open. -/
def IntervalLimit.new {α : Type} (closed lower : Bool) (value : LimitValue α) :
    IntervalLimit α :=
  ⟨if value.isLimitless then false else closed, lower, value⟩

/-- `IntervalLimit::lower` constructor (interval_limit.rs 74-76). -/
def IntervalLimit.lowerLimit {α : Type} (closed : Bool) (value : LimitValue α) :
    IntervalLimit α :=
  IntervalLimit.new closed true value

/-- `IntervalLimit::upper` constructor (interval_limit.rs 78-80). -/
def IntervalLimit.upperLimit {α : Type} (closed : Bool) (value : LimitValue α) :
    IntervalLimit α :=
  IntervalLimit.new closed false value

/-- `IntervalLimit::is_closed`. -/
def IntervalLimit.isClosed {α : Type} (s : IntervalLimit α) : Bool := s.closed

/-- `IntervalLimit::is_open`. -/
def IntervalLimit.isOpen {α : Type} (s : IntervalLimit α) : Bool := !s.closed

/-- `IntervalLimit::is_lower`. -/
def IntervalLimit.isLower {α : Type} (s : IntervalLimit α) : Bool := s.lower

/-- `IntervalLimit::is_upper`. -/
def IntervalLimit.isUpper {α : Type} (s : IntervalLimit α) : Bool := !s.lower

/-- `IntervalLimit::infinity` (interval_limit.rs 98-100). -/
def IntervalLimit.infinity {α : Type} (s : IntervalLimit α) : Bool :=
  s.value.isLimitless

/-- `IntervalLimit::get_value`. -/
def IntervalLimit.getValue {α : Type} (s : IntervalLimit α) : LimitValue α :=
  s.value

/-- `Interval<T>` (interval.rs 7-11): a pair of limits. -/
structure Interval (α : Type) where
  lower : IntervalLimit α
  upper : IntervalLimit α
  deriving DecidableEq

/-- `Interval::upper_limit`. -/
def Interval.upperLimit (i : Interval Int) : LimitValue Int := i.upper.getValue

/-- `Interval::lower_limit`. -/
def Interval.lowerLimit (i : Interval Int) : LimitValue Int := i.lower.getValue

/-- `Interval::has_upper_limit` (interval.rs 228-233). -/
def Interval.hasUpperLimit (i : Interval Int) : Bool :=
  match i.upperLimit with
  | .limit _ => true
  | .limitless => false

/-- `Interval::has_lower_limit` (interval.rs 235-240). -/
def Interval.hasLowerLimit (i : Interval Int) : Bool :=
  match i.lowerLimit with
  | .limit _ => true
  | .limitless => false

/-- `Interval::includes_upper_limit`. -/
def Interval.includesUpperLimit (i : Interval Int) : Bool := i.upper.isClosed

/-- `Interval::includes_lower_limit`. -/
def Interval.includesLowerLimit (i : Interval Int) : Bool := i.lower.isClosed

/-- `Interval::is_open` (interval.rs 140-142). -/
def Interval.isOpen (i : Interval Int) : Bool :=
  !i.includesLowerLimit && !i.includesUpperLimit

/-- `Interval::is_closed` (interval.rs 144-146). -/
def Interval.isClosed (i : Interval Int) : Bool :=
  i.includesUpperLimit && i.includesLowerLimit

/-- `Interval::is_empty` (interval.rs 148-153). -/
def Interval.isEmpty (i : Interval Int) : Bool :=
  match i.upperLimit, i.lowerLimit with
  | .limitless, .limitless => false
  | _, _ => i.isOpen && LimitValue.beq i.upperLimit i.lowerLimit

/-- `Interval::is_below` (interval.rs 124-130). -/
def Interval.isBelow (i : Interval Int) (value : LimitValue Int) : Bool :=
  if !i.hasUpperLimit then false
  else LimitValue.ltB i.upperLimit value
    || (LimitValue.beq i.upperLimit value && !i.includesUpperLimit)

/-- `Interval::is_above` (interval.rs 132-138). -/
def Interval.isAbove (i : Interval Int) (value : LimitValue Int) : Bool :=
  if !i.hasLowerLimit then false
  else LimitValue.gtB i.lowerLimit value
    || (LimitValue.beq i.lowerLimit value && !i.includesLowerLimit)

/-- `Interval::includes` (interval.rs 120-122). -/
def Interval.includes (i : Interval Int) (value : LimitValue Int) : Bool :=
  !i.isBelow value && !i.isAbove value

/-- `Interval::is_single_element` (interval.rs 91-99). -/
def Interval.isSingleElement (i : Interval Int) : Bool :=
  if !i.hasUpperLimit then false
  else if !i.hasLowerLimit then false
  else LimitValue.beq i.upperLimit i.lowerLimit && !i.isEmpty

/-- `PartialEq for Interval<T>` (interval.rs 13-27). -/
def Interval.beq (s o : Interval Int) : Bool :=
  if s.isEmpty && o.isEmpty then true
  else if s.isEmpty != o.isEmpty then false
  else if s.isSingleElement && o.isSingleElement then
    LimitValue.beq s.lowerLimit o.lowerLimit
  else if s.isSingleElement != o.isSingleElement then false
  else IntervalLimit.beq s.upper o.upper && IntervalLimit.beq s.lower o.lower

/-- `Interval::check_lower_is_less_than_or_equal_upper` (interval.rs 250-254),
as the condition that does not panic. -/
def Interval.checkLowerIsLessThanOrEqualUpper (lower upper : IntervalLimit Int) : Bool :=
  lower.isLower && upper.isUpper && lower.leB upper

/-- `Interval::new` (interval.rs 155-172); the `panic!` on an invalid pair is
modelled as `none`, and the single-point open/closed normalization is applied
exactly as in the source. -/
def Interval.new (lower upper : IntervalLimit Int) : Option (Interval Int) :=
  if Interval.checkLowerIsLessThanOrEqualUpper lower upper then
    some
      (if !upper.infinity && !lower.infinity
          && LimitValue.beq upper.getValue lower.getValue
          && (lower.isOpen != upper.isOpen) then
        ⟨if lower.isOpen then IntervalLimit.lowerLimit true lower.getValue else lower,
         if upper.isOpen then IntervalLimit.upperLimit true upper.getValue else upper⟩
      else ⟨lower, upper⟩)
  else none

/-- `Interval::new_with` (interval.rs 174-184). -/
def Interval.newWith (lower : LimitValue Int) (isLowerClosed : Bool)
    (upper : LimitValue Int) (isUpperClosed : Bool) : Option (Interval Int) :=
  Interval.new (IntervalLimit.lowerLimit isLowerClosed lower)
    (IntervalLimit.upperLimit isUpperClosed upper)

/-- `Interval::closed` (interval.rs 34-36). -/
def Interval.closed (lower upper : LimitValue Int) : Option (Interval Int) :=
  Interval.newWith lower true upper true

/-- `Interval::open` (interval.rs 42-44). -/
def Interval.open' (lower upper : LimitValue Int) : Option (Interval Int) :=
  Interval.newWith lower false upper false

/-- `Interval::over` (interval.rs 46-53). -/
def Interval.over (lower : LimitValue Int) (lowerIncluded : Bool)
    (upper : LimitValue Int) (upperIncluded : Bool) : Option (Interval Int) :=
  Interval.newWith lower lowerIncluded upper upperIncluded

/-- `Interval::up_to` (interval.rs 63-65). -/
def Interval.upTo (upper : LimitValue Int) : Option (Interval Int) :=
  Interval.closed .limitless upper

/-- `Interval::new_of_same_type` (interval.rs 110-118): `self` is carried only
for the "family", as in the source. -/
def Interval.newOfSameType (_s : Interval Int) (lower : LimitValue Int)
    (lowerClosed : Bool) (upper : LimitValue Int) (upperClosed : Bool) :
    Option (Interval Int) :=
  Interval.newWith lower lowerClosed upper upperClosed

/-- `Interval::empty_of_same_type` (interval.rs 101-108). -/
def Interval.emptyOfSameType (i : Interval Int) : Option (Interval Int) :=
  i.newOfSameType i.lowerLimit false i.lowerLimit false

/-- `Interval::equal_both_limitless` (interval.rs 256-258). -/
def Interval.equalBothLimitless (me your : LimitValue Int) : Bool :=
  match me, your with
  | .limitless, .limitless => true
  | _, _ => false

/-- `Interval::greater_of_lower_limits` (interval.rs 260-270). -/
def Interval.greaterOfLowerLimits (s o : Interval Int) : LimitValue Int :=
  if LimitValue.beq s.lowerLimit .limitless then o.lowerLimit
  else if LimitValue.beq o.lowerLimit .limitless then s.lowerLimit
  else if LimitValue.geB s.lowerLimit o.lowerLimit then s.lowerLimit
  else o.lowerLimit

/-- `Interval::lesser_of_upper_limits` (interval.rs 272-282). -/
def Interval.lesserOfUpperLimits (s o : Interval Int) : LimitValue Int :=
  if LimitValue.beq s.upperLimit .limitless then o.upperLimit
  else if LimitValue.beq o.upperLimit .limitless then s.upperLimit
  else if LimitValue.leB s.upperLimit o.upperLimit then s.upperLimit
  else o.upperLimit

/-- `Interval::greater_of_lower_included_in_intersection` (interval.rs 284-287). -/
def Interval.greaterOfLowerIncludedInIntersection (s o : Interval Int) : Bool :=
  s.includes (s.greaterOfLowerLimits o) && o.includes (s.greaterOfLowerLimits o)

/-- `Interval::greater_of_lower_included_in_union` (interval.rs 289-292). -/
def Interval.greaterOfLowerIncludedInUnion (s o : Interval Int) : Bool :=
  s.includes (s.greaterOfLowerLimits o) || o.includes (s.greaterOfLowerLimits o)

/-- `Interval::lesser_of_upper_included_in_intersection` (interval.rs 294-297). -/
def Interval.lesserOfUpperIncludedInIntersection (s o : Interval Int) : Bool :=
  s.includes (s.lesserOfUpperLimits o) && o.includes (s.lesserOfUpperLimits o)

/-- `Interval::lesser_of_upper_included_in_union` (interval.rs 299-302). -/
def Interval.lesserOfUpperIncludedInUnion (s o : Interval Int) : Bool :=
  s.includes (s.lesserOfUpperLimits o) || o.includes (s.lesserOfUpperLimits o)

/-- `Interval::intersect` (interval.rs 186-199). -/
def Interval.intersect (s o : Interval Int) : Option (Interval Int) :=
  if LimitValue.gtB (s.greaterOfLowerLimits o) (s.lesserOfUpperLimits o) then
    s.emptyOfSameType
  else
    s.newOfSameType (s.greaterOfLowerLimits o)
      (s.greaterOfLowerIncludedInIntersection o)
      (s.lesserOfUpperLimits o)
      (s.lesserOfUpperIncludedInIntersection o)

/-- `Interval::intersects` (interval.rs 201-219); note that the second
shortcut compares `self`'s lower limit with `self`'s own upper limit, as in
the source. -/
def Interval.intersects (s o : Interval Int) : Bool :=
  if Interval.equalBothLimitless s.upperLimit o.upperLimit then true
  else if Interval.equalBothLimitless s.lowerLimit s.upperLimit then true
  else
    match LimitValue.pcmp (s.greaterOfLowerLimits o) (s.lesserOfUpperLimits o) with
    | some .lt => true
    | some .gt => false
    | _ =>
      s.greaterOfLowerIncludedInIntersection o
        && s.lesserOfUpperIncludedInIntersection o

/-- `Interval::left_complement_relative_to` (interval.rs 308-320).  The outer
`Option` models the possible `panic!` inside `new_of_same_type` (`none`); the
inner `Option` is the Rust return value. -/
def Interval.leftComplementRelativeTo (s o : Interval Int) :
    Option (Option (Interval Int)) :=
  if LimitValue.pcmp s.lowerLimit o.lowerLimit == some .lt then some none
  else
    (s.newOfSameType o.lowerLimit o.includesLowerLimit s.lowerLimit
        (!s.includesLowerLimit)).map some

/-- `Interval::right_complement_relative_to` (interval.rs 322-334), with the
same `Option` convention as the left complement. -/
def Interval.rightComplementRelativeTo (s o : Interval Int) :
    Option (Option (Interval Int)) :=
  if LimitValue.pcmp s.upperLimit o.upperLimit == some .gt then some none
  else
    (s.newOfSameType s.upperLimit (!s.includesUpperLimit) o.upperLimit
        o.includesUpperLimit).map some

/-- `Interval::complement_relative_to` (interval.rs 67-81); `none` models a
panic in either complement. -/
def Interval.complementRelativeTo (s o : Interval Int) :
    Option (List (Interval Int)) :=
  if !(s.intersects o) then some [o]
  else
    match s.leftComplementRelativeTo o, s.rightComplementRelativeTo o with
    | some l, some r => some (l.toList ++ r.toList)
    | _, _ => none

/-- Modelled from the spec: `Interval::gap` is not present under the source
tree (only its callers, tests and the union-inclusion helpers are).  Spec
section 4.3: "if intervals intersect, return an empty interval of the same
type; otherwise the gap spans from the lesser-of-the-two-upper-limits to the
greater-of-the-two-lower-limits, with endpoint-inclusion inverted from
whichever side actually touches (i.e., the gap excludes a boundary point if
either source interval already includes it)". -/
def Interval.gap (s o : Interval Int) : Option (Interval Int) :=
  if s.intersects o then s.emptyOfSameType
  else
    s.newOfSameType (s.lesserOfUpperLimits o) (!s.lesserOfUpperIncludedInUnion o)
      (s.greaterOfLowerLimits o) (!s.greaterOfLowerIncludedInUnion o)

/-- `Ordered` (interval_seq.rs 9-19): the sort policy of an `IntervalSeq`. -/
inductive Ordered where
  | upperLower (inverseLower inverseUpper : Bool)
  | lowerUpper (inverseLower inverseUpper : Bool)
  deriving DecidableEq

/-- `to_ordering` (interval_seq.rs 21-28); the `panic!` arm is `none`. -/
def toOrdering (n : Int) : Option Ordering :=
  if n = -1 then some .lt
  else if n = 0 then some .eq
  else if n = 1 then some .gt
  else none

/-- `Ordered::lower_factor` (interval_seq.rs 31-48). -/
def Ordered.lowerFactor : Ordered → Int
  | .upperLower il _ => if il then -1 else 1
  | .lowerUpper il _ => if il then -1 else 1

/-- `Ordered::upper_factor` (interval_seq.rs 49-66). -/
def Ordered.upperFactor : Ordered → Int
  | .upperLower _ iu => if iu then -1 else 1
  | .lowerUpper _ iu => if iu then -1 else 1

/-- Rust's `Ordering as i8`. -/
def ordAsInt : Ordering → Int
  | .lt => -1
  | .eq => 0
  | .gt => 1

/-- `Ordered::compare` (interval_seq.rs 68-108); the `unwrap`s on the limit
comparisons and the `panic!` in `to_ordering` are modelled as `none`.  The
`+ lower_factor` in the `LowerUpper` arm mirrors the source. -/
def Ordered.compare (p : Ordered) (e1 e2 : Interval Int) : Option Ordering :=
  match p with
  | .upperLower _ _ =>
    if e1.isEmpty && e2.isEmpty then some .eq
    else if e1.isEmpty then some .lt
    else if e2.isEmpty then some .gt
    else
      match e1.upper.pcmp e2.upper, e1.lower.pcmp e2.lower with
      | some uc, some lc =>
        if uc != .eq then toOrdering (ordAsInt uc * p.upperFactor)
        else toOrdering (ordAsInt lc * p.lowerFactor)
      | _, _ => none
  | .lowerUpper _ _ =>
    if e1.isEmpty && e2.isEmpty then some .eq
    else if e1.isEmpty then some .gt
    else if e2.isEmpty then some .lt
    else
      match e1.upper.pcmp e2.upper, e1.lower.pcmp e2.lower with
      | some uc, some lc =>
        if uc != .eq then toOrdering (ordAsInt uc + p.lowerFactor)
        else toOrdering (ordAsInt lc * p.upperFactor)
      | _, _ => none

/-- `IntervalSeq<T>` (interval_seq.rs 111-114). -/
structure IntervalSeq where
  intervals : List (Interval Int)
  ordered : Ordered

/-- `IntervalSeq::new` (interval_seq.rs 130-142): the default sort policy is
`UpperLower { inverse_lower: true, inverse_upper: false }`. -/
def IntervalSeq.new (values : List (Interval Int)) : IntervalSeq :=
  ⟨values, .upperLower true false⟩

/-- `IntervalSeq::empty` (interval_seq.rs 125-128). -/
def IntervalSeq.empty : IntervalSeq :=
  IntervalSeq.new []

/-- `IntervalSeq::append` (interval_seq.rs 117-119). -/
def IntervalSeq.append (s : IntervalSeq) (value : Interval Int) : IntervalSeq :=
  ⟨s.intervals ++ [value], s.ordered⟩

/-! ## Auxiliary lemmas -/

theorem intPcmp_isSome (a b : Int) : (intPcmp a b).isSome = true := rfl

theorem limitValue_pcmpWith_isSome {α : Type} (pc : α → α → Option Ordering)
    (htotal : ∀ a b, (pc a b).isSome = true) (a b : LimitValue α) :
    (LimitValue.pcmpWith pc a b).isSome = true := by
  cases a <;> cases b <;> first
    | rfl
    | exact htotal _ _

theorem intervalLimit_pcmpWith_isSome {α : Type} (pc : α → α → Option Ordering)
    (aeq : α → α → Bool) (htotal : ∀ a b, (pc a b).isSome = true)
    (s o : IntervalLimit α) :
    (IntervalLimit.pcmpWith pc aeq s o).isSome = true := by
  unfold IntervalLimit.pcmpWith IntervalLimit.lowerToOrdering
    IntervalLimit.closedToOrdering
  repeat' split
  all_goals first
    | rfl
    | exact limitValue_pcmpWith_isSome pc htotal _ _

theorem IntervalLimit.pcmp_isSome (s o : IntervalLimit Int) :
    (IntervalLimit.pcmp s o).isSome = true :=
  intervalLimit_pcmpWith_isSome intPcmp intBeq intPcmp_isSome s o

theorem chain_head_rel {α : Type} {r : α → α → Prop} {S : List α}
    (htr : ∀ a ∈ S, ∀ b ∈ S, ∀ c ∈ S, r a b → r b c → r a c) :
    ∀ {x : α} {xs : List α}, x :: xs ⊆ S → List.Chain' r (x :: xs) →
      ∀ y ∈ xs, r x y := by
  intro x xs
  induction xs generalizing x with
  | nil =>
    intro _ _ y hy
    simp at hy
  | cons z zs ih =>
    intro hsub hch y hy
    have hxz : r x z := (List.chain'_cons.mp hch).1
    rcases List.mem_cons.mp hy with rfl | hy'
    · exact hxz
    · have hzy : r z y :=
        ih (fun t ht => hsub (List.mem_cons_of_mem _ ht))
          (List.chain'_cons.mp hch).2 y hy'
      exact htr x (hsub (List.mem_cons_self x _)) z
        (hsub (List.mem_cons_of_mem _ (List.mem_cons_self z _))) y
        (hsub (List.mem_cons_of_mem _ (List.mem_cons_of_mem _ hy'))) hxz hzy

theorem eq_of_perm_of_chain {α : Type} {r : α → α → Prop} (S : List α)
    (htr : ∀ a ∈ S, ∀ b ∈ S, ∀ c ∈ S, r a b → r b c → r a c)
    (hanti : ∀ a ∈ S, ∀ b ∈ S, r a b → r b a → a = b) :
    ∀ {l₁ l₂ : List α}, l₁ ⊆ S → l₁.Perm l₂ → List.Chain' r l₁ →
      List.Chain' r l₂ → l₁ = l₂ := by
  intro l₁
  induction l₁ with
  | nil =>
    intro l₂ _ hp _ _
    exact hp.nil_eq
  | cons a t ih =>
    intro l₂ hsub hp hc1 hc2
    cases l₂ with
    | nil => exact absurd hp.eq_nil (List.cons_ne_nil a t)
    | cons b t' =>
      have hsub2 : b :: t' ⊆ S := fun x hx => hsub (hp.symm.subset hx)
      have hb : b ∈ a :: t := hp.symm.subset (List.mem_cons_self b t')
      have hab : a = b := by
        rcases List.mem_cons.mp hb with h | hbt
        · exact h.symm
        · have rab : r a b := chain_head_rel htr hsub hc1 b hbt
          have hain : a ∈ b :: t' := hp.subset (List.mem_cons_self a t)
          rcases List.mem_cons.mp hain with h | hat'
          · exact h
          · have rba : r b a := chain_head_rel htr hsub2 hc2 a hat'
            exact hanti a (hsub (List.mem_cons_self a t)) b
              (hsub (List.mem_cons_of_mem _ hbt)) rab rba
      subst hab
      have hp' : t.Perm t' := hp.cons_inv
      rw [ih (fun x hx => hsub (List.mem_cons_of_mem _ hx)) hp' hc1.tail hc2.tail]

theorem ltB_limit (a b : Int) :
    LimitValue.ltB (.limit a) (.limit b) = decide (a < b) := by
  unfold LimitValue.ltB LimitValue.pcmp LimitValue.pcmpWith intPcmp
  rcases lt_trichotomy a b with h | h | h
  · simp [h]
    decide
  · subst h
    simp [lt_irrefl]
    decide
  · have h1 : ¬a < b := not_lt.mpr h.le
    have h2 : a ≠ b := ne_of_gt h
    simp [h1, h2]
    decide

theorem gtB_limit (a b : Int) :
    LimitValue.gtB (.limit a) (.limit b) = decide (b < a) := by
  unfold LimitValue.gtB LimitValue.pcmp LimitValue.pcmpWith intPcmp
  rcases lt_trichotomy a b with h | h | h
  · have h2 : ¬b < a := not_lt.mpr h.le
    simp [h, h2]
    decide
  · subst h
    simp [lt_irrefl]
    decide
  · have h1 : ¬a < b := not_lt.mpr h.le
    have h2 : a ≠ b := ne_of_gt h
    simp [h1, h2, h]
    decide

theorem beq_limit (a b : Int) :
    LimitValue.beq (.limit a) (.limit b) = decide (a = b) := by
  unfold LimitValue.beq LimitValue.beqWith intBeq
  by_cases h : a = b <;> simp [h]

theorem gtB_limit_limitless (a : Int) :
    LimitValue.gtB (.limit a) .limitless = true := rfl

theorem ltB_limit_limitless (a : Int) :
    LimitValue.ltB (.limit a) .limitless = false := rfl

theorem beq_limit_limitless (a : Int) :
    LimitValue.beq (.limit a) .limitless = false := rfl

/-! ## The claims -/

/-- The canonical sorted arrangement of the twelve limits of
interval_limit.rs test03_sort; limitless limits are normalized open by the
constructor, so both unbounded-lower entries (and both unbounded-upper
entries) are the same value. -/
def sortedLimits : List (IntervalLimit Int) :=
  [.lowerLimit false .limitless, .lowerLimit false .limitless,
   .lowerLimit true (.limit 1), .lowerLimit false (.limit 1),
   .upperLimit false (.limit 1), .upperLimit true (.limit 1),
   .lowerLimit true (.limit 5), .lowerLimit false (.limit 5),
   .upperLimit false (.limit 5), .upperLimit true (.limit 5),
   .upperLimit false .limitless, .upperLimit false .limitless]

/-- What `sort_by(|a, b| a.partial_cmp(b).unwrap())` guarantees between
consecutive elements of its output: the comparator does not say Greater. -/
def sortLe (a b : IntervalLimit Int) : Prop :=
  IntervalLimit.pcmp a b ≠ some Ordering.gt

instance : DecidableRel sortLe := fun a b =>
  inferInstanceAs (Decidable (IntervalLimit.pcmp a b ≠ some Ordering.gt))

theorem sortedLimits_chain : List.Chain' sortLe sortedLimits := by
  simp only [sortedLimits, List.chain'_cons, List.chain'_singleton, and_true]
  decide

/-- Claim C1: sorting IntervalLimit i32 values with IntervalLimit's comparison
yields the canonical order: the canonical list (unbounded-lower limits first,
then closed-lower 1 < open-lower 1 < open-upper 1 < closed-upper 1, then the
same block at 5, then the unbounded-upper limits) is sorted, and any sorted
arrangement of those twelve limits is equal to it. -/
theorem C1_sort_canonical_order :
    List.Chain' sortLe sortedLimits ∧
    ∀ M : List (IntervalLimit Int), M.Perm sortedLimits →
      List.Chain' sortLe M → M = sortedLimits := by
  constructor
  · exact sortedLimits_chain
  · intro M hp hc
    exact eq_of_perm_of_chain sortedLimits (by decide) (by decide)
      (fun x hx => hp.subset hx) hp hc sortedLimits_chain

/-- Witness for C1 at a concrete sorted arrangement. -/
theorem C1_sort_canonical_order_witness : sortedLimits = sortedLimits :=
  C1_sort_canonical_order.2 sortedLimits (List.Perm.refl sortedLimits)
    sortedLimits_chain

/-- Claim C7 counterexample: under LimitValue's context-free order,
`Limitless` compares less than `Limit(0)`, not greater. -/
theorem C7_counterexample :
    LimitValue.pcmp .limitless (.limit 0) = some Ordering.lt ∧
    ¬LimitValue.pcmp .limitless (.limit 0) = some Ordering.gt := by
  constructor
  · rfl
  · decide

/-- Claim C7 amended: under LimitValue's own context-free order, `Limitless`
compares less than `Limit(v)` for every finite value `v` (and `Limit(v)`
compares greater than `Limitless`). -/
theorem C7_amended (v : Int) :
    LimitValue.pcmp .limitless (.limit v) = some Ordering.lt ∧
    LimitValue.pcmp (.limit v) .limitless = some Ordering.gt :=
  ⟨rfl, rfl⟩

/-- Witness for C7 amended at the value 0. -/
theorem C7_amended_witness :
    LimitValue.pcmp .limitless (.limit 0) = some Ordering.lt ∧
    LimitValue.pcmp (.limit 0) .limitless = some Ordering.gt :=
  C7_amended 0

/-- Claim C10: when the element ordering is total (its comparison is never
`None`), `IntervalLimit`'s comparator never returns `None` for any pair of
limits, so the `unwrap()`s applied to it cannot panic. -/
theorem C10_pcmp_never_none {α : Type} (pc : α → α → Option Ordering)
    (aeq : α → α → Bool) (htotal : ∀ a b, (pc a b).isSome = true)
    (s o : IntervalLimit α) :
    (IntervalLimit.pcmpWith pc aeq s o).isSome = true :=
  intervalLimit_pcmpWith_isSome pc aeq htotal s o

/-- Witness for C10 at the i32 instance and a concrete pair of limits. -/
theorem C10_pcmp_never_none_witness :
    (IntervalLimit.pcmpWith intPcmp intBeq
      (IntervalLimit.lowerLimit true (.limit 1))
      (IntervalLimit.upperLimit false (.limit 5))).isSome = true :=
  C10_pcmp_never_none intPcmp intBeq (fun _ _ => rfl)
    (IntervalLimit.lowerLimit true (.limit 1))
    (IntervalLimit.upperLimit false (.limit 5))

/-- Claim C8: constructing an interval whose lower limit is greater than its
upper limit under the IntervalLimit order fails fatally (modelled as `none`)
for every such pair; `closed(2, 1)` fails; and a successful construction
never swaps or clamps the bound values. -/
theorem C8_invalid_construction_fails :
    (∀ l u : IntervalLimit Int, IntervalLimit.pcmp l u = some Ordering.gt →
      Interval.new l u = none) ∧
    Interval.closed (.limit 2) (.limit 1) = none ∧
    (∀ l u : IntervalLimit Int, ∀ i : Interval Int, Interval.new l u = some i →
      i.lower.value = l.value ∧ i.upper.value = u.value) := by
  refine ⟨?_, by decide, ?_⟩
  · intro l u h
    simp [Interval.new, Interval.checkLowerIsLessThanOrEqualUpper,
      IntervalLimit.leB, h]
  · intro l u i h
    unfold Interval.new at h
    split at h
    · simp only [Option.some.injEq] at h
      subst h
      refine ⟨?_, ?_⟩ <;> split <;> first
        | rfl
        | (split <;> first
            | rfl
            | (split <;> rfl))
    · exact absurd h (by simp)

/-- Witness for C8: `closed(2, 1)` hits the failing branch via the general
statement. -/
theorem C8_invalid_construction_fails_witness :
    Interval.new (IntervalLimit.lowerLimit true (.limit 2))
      (IntervalLimit.upperLimit true (.limit 1)) = none :=
  C8_invalid_construction_fails.1 (IntervalLimit.lowerLimit true (.limit 2))
    (IntervalLimit.upperLimit true (.limit 1)) (by decide)

/-- Claim C9: an empty interval contains no value at all: whenever
`is_empty` holds, `includes` is false for every value, finite or limitless. -/
theorem C9_empty_includes_nothing (i : Interval Int) (v : LimitValue Int)
    (h : i.isEmpty = true) : i.includes v = false := by
  obtain ⟨⟨lc, ll, lv⟩, ⟨uc, ul, uv⟩⟩ := i
  cases uv with
  | limitless =>
    cases lv <;>
      simp [Interval.isEmpty, Interval.upperLimit, Interval.lowerLimit,
        IntervalLimit.getValue, LimitValue.beq, LimitValue.beqWith] at h
  | limit a =>
    cases lv with
    | limitless =>
      simp [Interval.isEmpty, Interval.upperLimit, Interval.lowerLimit,
        IntervalLimit.getValue, LimitValue.beq, LimitValue.beqWith] at h
    | limit b =>
      simp only [Interval.isEmpty, Interval.upperLimit, Interval.lowerLimit,
        IntervalLimit.getValue, Interval.isOpen, Interval.includesLowerLimit,
        Interval.includesUpperLimit, IntervalLimit.isClosed, beq_limit,
        Bool.and_eq_true, Bool.not_eq_true', decide_eq_true_eq] at h
      obtain ⟨⟨hlc, huc⟩, hab⟩ := h
      subst hlc huc hab
      cases v with
      | limitless =>
        simp [Interval.includes, Interval.isBelow, Interval.isAbove,
          Interval.hasLowerLimit, Interval.hasUpperLimit, Interval.upperLimit,
          Interval.lowerLimit, IntervalLimit.getValue,
          Interval.includesLowerLimit, Interval.includesUpperLimit,
          IntervalLimit.isClosed, gtB_limit_limitless, ltB_limit_limitless,
          beq_limit_limitless]
      | limit x =>
        rcases lt_trichotomy a x with hax | hax | hax <;>
          simp [Interval.includes, Interval.isBelow, Interval.isAbove,
            Interval.hasLowerLimit, Interval.hasUpperLimit, Interval.upperLimit,
            Interval.lowerLimit, IntervalLimit.getValue,
            Interval.includesLowerLimit, Interval.includesUpperLimit,
            IntervalLimit.isClosed, ltB_limit, gtB_limit, beq_limit, hax]

/-- Witness for C9 at the empty interval `open(1, 1)` and the value 1. -/
theorem C9_empty_includes_nothing_witness :
    Interval.includes ⟨⟨false, true, .limit 1⟩, ⟨false, false, .limit 1⟩⟩
      (.limit 1) = false :=
  C9_empty_includes_nothing
    ⟨⟨false, true, .limit 1⟩, ⟨false, false, .limit 1⟩⟩ (.limit 1) (by decide)

/-- Claim C3 (code bug evidence): `intersects` is not commutative.  The
fully-unbounded interval `closed(Limitless, Limitless)` intersects the empty
interval `open(1, 1)` in one direction but not the other, because the second
shortcut in `Interval::intersects` compares `self`'s lower limit with
`self`'s own upper limit instead of `other`'s lower limit. -/
theorem C3_intersects_not_commutative :
    Interval.closed .limitless .limitless =
      some ⟨⟨false, true, .limitless⟩, ⟨false, false, .limitless⟩⟩ ∧
    Interval.open' (.limit 1) (.limit 1) =
      some ⟨⟨false, true, .limit 1⟩, ⟨false, false, .limit 1⟩⟩ ∧
    Interval.intersects ⟨⟨false, true, .limitless⟩, ⟨false, false, .limitless⟩⟩
      ⟨⟨false, true, .limit 1⟩, ⟨false, false, .limit 1⟩⟩ = true ∧
    Interval.intersects ⟨⟨false, true, .limit 1⟩, ⟨false, false, .limit 1⟩⟩
      ⟨⟨false, true, .limitless⟩, ⟨false, false, .limitless⟩⟩ = false := by
  decide

/-- Claim C5 (code bug evidence): with equal lower bounds (`[1,7]` against
itself, the repo's own test23 input, whose lower limits compare equal under
the IntervalLimit order), `left_complement_relative_to` returns
`Some([1,1])` — a single-element interval — instead of `None`, and
`complement_relative_to` of `[1,7]` against itself therefore returns two
single-point intervals instead of the empty list its test expects. -/
theorem C5_left_complement_equal_lower :
    Interval.closed (.limit 1) (.limit 7) =
      some ⟨⟨true, true, .limit 1⟩, ⟨true, false, .limit 7⟩⟩ ∧
    IntervalLimit.pcmp (⟨true, true, .limit 1⟩ : IntervalLimit Int)
      ⟨true, true, .limit 1⟩ = some Ordering.eq ∧
    Interval.leftComplementRelativeTo
      ⟨⟨true, true, .limit 1⟩, ⟨true, false, .limit 7⟩⟩
      ⟨⟨true, true, .limit 1⟩, ⟨true, false, .limit 7⟩⟩ =
      some (some ⟨⟨true, true, .limit 1⟩, ⟨true, false, .limit 1⟩⟩) ∧
    Interval.isSingleElement ⟨⟨true, true, .limit 1⟩, ⟨true, false, .limit 1⟩⟩ =
      true ∧
    Interval.complementRelativeTo
      ⟨⟨true, true, .limit 1⟩, ⟨true, false, .limit 7⟩⟩
      ⟨⟨true, true, .limit 1⟩, ⟨true, false, .limit 7⟩⟩ =
      some [⟨⟨true, true, .limit 1⟩, ⟨true, false, .limit 1⟩⟩,
            ⟨⟨true, true, .limit 7⟩, ⟨true, false, .limit 7⟩⟩] := by
  decide

/-- Claim C2 counterexample: for `A = up_to(3)` (limitless lower limit) and
`B = closed(5, 10)` the greater lower limit (5) is strictly greater than the
lesser upper limit (3), yet `A.intersect(B)` is the fully-unbounded interval,
which is not empty. -/
theorem C2_counterexample :
    Interval.upTo (.limit 3) =
      some ⟨⟨false, true, .limitless⟩, ⟨true, false, .limit 3⟩⟩ ∧
    Interval.closed (.limit 5) (.limit 10) =
      some ⟨⟨true, true, .limit 5⟩, ⟨true, false, .limit 10⟩⟩ ∧
    LimitValue.gtB
      (Interval.greaterOfLowerLimits
        ⟨⟨false, true, .limitless⟩, ⟨true, false, .limit 3⟩⟩
        ⟨⟨true, true, .limit 5⟩, ⟨true, false, .limit 10⟩⟩)
      (Interval.lesserOfUpperLimits
        ⟨⟨false, true, .limitless⟩, ⟨true, false, .limit 3⟩⟩
        ⟨⟨true, true, .limit 5⟩, ⟨true, false, .limit 10⟩⟩) = true ∧
    (Interval.intersect ⟨⟨false, true, .limitless⟩, ⟨true, false, .limit 3⟩⟩
        ⟨⟨true, true, .limit 5⟩, ⟨true, false, .limit 10⟩⟩).map Interval.isEmpty =
      some false := by
  decide

theorem newWith_limit_eq (a b : Int) (ca cb : Bool)
    (h : a < b ∨ (a = b ∧ ca = cb)) :
    Interval.newWith (.limit a) ca (.limit b) cb =
      some ⟨⟨ca, true, .limit a⟩, ⟨cb, false, .limit b⟩⟩ := by
  rcases h with h | ⟨rfl, rfl⟩
  · have hne : a ≠ b := ne_of_lt h
    have hne' : b ≠ a := ne_of_gt h
    simp [Interval.newWith, Interval.new, Interval.checkLowerIsLessThanOrEqualUpper,
      IntervalLimit.lowerLimit, IntervalLimit.upperLimit, IntervalLimit.new,
      IntervalLimit.isLower, IntervalLimit.isUpper, IntervalLimit.leB,
      IntervalLimit.pcmp, IntervalLimit.pcmpWith, LimitValue.isLimitless,
      LimitValue.beq, LimitValue.beqWith, intBeq, LimitValue.pcmpWith, intPcmp,
      IntervalLimit.infinity, IntervalLimit.getValue, IntervalLimit.isOpen,
      hne, hne', h]
  · simp [Interval.newWith, Interval.new, Interval.checkLowerIsLessThanOrEqualUpper,
      IntervalLimit.lowerLimit, IntervalLimit.upperLimit, IntervalLimit.new,
      IntervalLimit.isLower, IntervalLimit.isUpper, IntervalLimit.leB,
      IntervalLimit.pcmp, IntervalLimit.pcmpWith, LimitValue.isLimitless,
      LimitValue.beq, LimitValue.beqWith, intBeq, LimitValue.pcmpWith, intPcmp,
      IntervalLimit.infinity, IntervalLimit.getValue, IntervalLimit.isOpen,
      IntervalLimit.lowerToOrdering]

/-- Claim C2 amended: for every pair of intervals whose greater lower limit is
strictly greater than the lesser upper limit, `A.intersect(B)` is an empty
interval provided `A`'s lower limit is finite; with a limitless lower limit
the "empty" branch degenerates to the fully-unbounded interval. -/
theorem C2_amended (A B : Interval Int) (hfin : A.hasLowerLimit = true)
    (hgt : LimitValue.gtB (A.greaterOfLowerLimits B) (A.lesserOfUpperLimits B) =
      true) :
    (A.intersect B).map Interval.isEmpty = some true := by
  obtain ⟨a, ha⟩ : ∃ a, A.lowerLimit = .limit a := by
    unfold Interval.hasLowerLimit at hfin
    cases hx : A.lowerLimit with
    | limit x => exact ⟨x, rfl⟩
    | limitless => rw [hx] at hfin; simp at hfin
  have hempty : A.emptyOfSameType =
      some ⟨⟨false, true, .limit a⟩, ⟨false, false, .limit a⟩⟩ := by
    unfold Interval.emptyOfSameType Interval.newOfSameType
    rw [ha]
    exact newWith_limit_eq a a false false (Or.inr ⟨rfl, rfl⟩)
  simp only [Interval.intersect, hgt, if_true]
  rw [hempty]
  simp [Interval.isEmpty, Interval.upperLimit, Interval.lowerLimit,
    IntervalLimit.getValue, Interval.isOpen, Interval.includesLowerLimit,
    Interval.includesUpperLimit, IntervalLimit.isClosed, beq_limit]

/-- Witness for C2 amended at `A = [1,3]`, `B = [5,7]`. -/
theorem C2_amended_witness :
    (Interval.intersect ⟨⟨true, true, .limit 1⟩, ⟨true, false, .limit 3⟩⟩
      ⟨⟨true, true, .limit 5⟩, ⟨true, false, .limit 7⟩⟩).map Interval.isEmpty =
      some true :=
  C2_amended ⟨⟨true, true, .limit 1⟩, ⟨true, false, .limit 3⟩⟩
    ⟨⟨true, true, .limit 5⟩, ⟨true, false, .limit 7⟩⟩ (by decide) (by decide)

/-- Claim C6 counterexample: with the default policy
`UpperLower { inverse_lower: true, inverse_upper: false }`, the non-empty
intervals `[5,10]` and `[1,10]` have equal upper limits, and `[5,10]` — the
one with the *larger* lower limit — sorts first (`compare` returns `Less`),
not the one with the smaller lower limit as the claim states. -/
theorem C6_counterexample :
    IntervalSeq.empty.ordered = Ordered.upperLower true false ∧
    Interval.isEmpty ⟨⟨true, true, .limit 5⟩, ⟨true, false, .limit 10⟩⟩ = false ∧
    Interval.isEmpty ⟨⟨true, true, .limit 1⟩, ⟨true, false, .limit 10⟩⟩ = false ∧
    IntervalLimit.pcmp (⟨true, false, .limit 10⟩ : IntervalLimit Int)
      ⟨true, false, .limit 10⟩ = some Ordering.eq ∧
    Ordered.compare (.upperLower true false)
      ⟨⟨true, true, .limit 5⟩, ⟨true, false, .limit 10⟩⟩
      ⟨⟨true, true, .limit 1⟩, ⟨true, false, .limit 10⟩⟩ = some Ordering.lt := by
  decide

/-- Claim C6 amended: `empty()`/`new()` use the policy
`UpperLower { inverse_lower: true, inverse_upper: false }`: empty intervals
sort before non-empty ones, upper limits compare ascending, and on equal
upper limits the lower-limit comparison is *inverted* (the larger lower limit
sorts first). -/
theorem C6_amended :
    (∀ values : List (Interval Int),
      (IntervalSeq.new values).ordered = Ordered.upperLower true false) ∧
    (∀ e1 e2 : Interval Int, e1.isEmpty = true → e2.isEmpty = false →
      Ordered.compare (.upperLower true false) e1 e2 = some Ordering.lt) ∧
    (∀ e1 e2 : Interval Int, e1.isEmpty = false → e2.isEmpty = false →
      IntervalLimit.pcmp e1.upper e2.upper = some Ordering.eq →
      Ordered.compare (.upperLower true false) e1 e2 =
        (IntervalLimit.pcmp e1.lower e2.lower).map Ordering.swap) := by
  refine ⟨fun _ => rfl, ?_, ?_⟩
  · intro e1 e2 h1 h2
    simp [Ordered.compare, h1, h2]
  · intro e1 e2 h1 h2 hup
    obtain ⟨lc, hlc⟩ :=
      Option.isSome_iff_exists.mp (IntervalLimit.pcmp_isSome e1.lower e2.lower)
    simp only [Ordered.compare, h1, h2, Bool.false_and, Bool.false_eq_true,
      if_false, IntervalLimit.pcmp] at hup hlc ⊢
    rw [hup, hlc]
    cases lc <;> decide

/-- Witness for C6 amended at `[1,10]` against `[5,10]`. -/
theorem C6_amended_witness :
    Ordered.compare (.upperLower true false)
      ⟨⟨true, true, .limit 1⟩, ⟨true, false, .limit 10⟩⟩
      ⟨⟨true, true, .limit 5⟩, ⟨true, false, .limit 10⟩⟩ =
      (IntervalLimit.pcmp ⟨true, true, .limit 1⟩
        ⟨true, true, .limit 5⟩).map Ordering.swap :=
  C6_amended.2.2 ⟨⟨true, true, .limit 1⟩, ⟨true, false, .limit 10⟩⟩
    ⟨⟨true, true, .limit 5⟩, ⟨true, false, .limit 10⟩⟩
    (by decide) (by decide) (by decide)

theorem lesser_of_upper_finite (A B : Interval Int)
    (h : Interval.equalBothLimitless A.upperLimit B.upperLimit = false) :
    ∃ u : Int, A.lesserOfUpperLimits B = .limit u := by
  unfold Interval.lesserOfUpperLimits
  cases hA : A.upperLimit with
  | limitless =>
    cases hB : B.upperLimit with
    | limitless =>
      rw [hA, hB] at h
      simp [Interval.equalBothLimitless] at h
    | limit b => exact ⟨b, by simp [LimitValue.beq, LimitValue.beqWith]⟩
  | limit a =>
    cases hB : B.upperLimit with
    | limitless => exact ⟨a, by simp [LimitValue.beq, LimitValue.beqWith]⟩
    | limit b =>
      simp only [LimitValue.beq, LimitValue.beqWith]
      by_cases hc : LimitValue.leB (.limit a) (.limit b) = true
      · exact ⟨a, by simp [hc]⟩
      · exact ⟨b, by simp [hc]⟩

theorem greater_of_lower_shape (A B : Interval Int) :
    (∃ l : Int, A.greaterOfLowerLimits B = .limit l) ∨
      A.greaterOfLowerLimits B = .limitless := by
  unfold Interval.greaterOfLowerLimits
  cases hA : A.lowerLimit with
  | limitless =>
    cases hB : B.lowerLimit with
    | limitless =>
      right
      simp [LimitValue.beq, LimitValue.beqWith]
    | limit b => exact Or.inl ⟨b, by simp [LimitValue.beq, LimitValue.beqWith]⟩
  | limit a =>
    cases hB : B.lowerLimit with
    | limitless => exact Or.inl ⟨a, by simp [LimitValue.beq, LimitValue.beqWith]⟩
    | limit b =>
      left
      simp only [LimitValue.beq, LimitValue.beqWith]
      by_cases hc : LimitValue.geB (.limit a) (.limit b) = true
      · exact ⟨a, by simp [hc]⟩
      · exact ⟨b, by simp [hc]⟩

/-- Claim C4: the gap of two disjoint closed intervals is the open interval
between them — `closed(1,3).gap(closed(5,7))` equals `open(3,5)` — and in
general the gap of two non-intersecting intervals spans from the lesser of
the two upper limits to the greater of the two lower limits, an endpoint
being excluded exactly when either source interval includes that boundary
value. -/
theorem C4_gap_between_disjoint :
    ((Interval.closed (.limit 1) (.limit 3) =
        some ⟨⟨true, true, .limit 1⟩, ⟨true, false, .limit 3⟩⟩) ∧
      (Interval.closed (.limit 5) (.limit 7) =
        some ⟨⟨true, true, .limit 5⟩, ⟨true, false, .limit 7⟩⟩) ∧
      (Interval.open' (.limit 3) (.limit 5) =
        some ⟨⟨false, true, .limit 3⟩, ⟨false, false, .limit 5⟩⟩) ∧
      Interval.gap ⟨⟨true, true, .limit 1⟩, ⟨true, false, .limit 3⟩⟩
          ⟨⟨true, true, .limit 5⟩, ⟨true, false, .limit 7⟩⟩ =
        some ⟨⟨false, true, .limit 3⟩, ⟨false, false, .limit 5⟩⟩ ∧
      (Interval.gap ⟨⟨true, true, .limit 1⟩, ⟨true, false, .limit 3⟩⟩
          ⟨⟨true, true, .limit 5⟩, ⟨true, false, .limit 7⟩⟩).map
          (fun g => g.beq ⟨⟨false, true, .limit 3⟩, ⟨false, false, .limit 5⟩⟩) =
        some true) ∧
    ∀ A B : Interval Int, A.intersects B = false →
      ∃ g : Interval Int, A.gap B = some g ∧
        g.lowerLimit = A.lesserOfUpperLimits B ∧
        g.upperLimit = A.greaterOfLowerLimits B ∧
        g.includesLowerLimit =
          !(A.includes (A.lesserOfUpperLimits B)
            || B.includes (A.lesserOfUpperLimits B)) ∧
        g.includesUpperLimit =
          !(A.includes (A.greaterOfLowerLimits B)
            || B.includes (A.greaterOfLowerLimits B)) := by
  refine ⟨by decide, ?_⟩
  intro A B h
  have h1 : Interval.equalBothLimitless A.upperLimit B.upperLimit = false := by
    cases hc : Interval.equalBothLimitless A.upperLimit B.upperLimit
    · rfl
    · exfalso
      unfold Interval.intersects at h
      rw [hc] at h
      simp at h
  have h2 : Interval.equalBothLimitless A.lowerLimit A.upperLimit = false := by
    cases hc : Interval.equalBothLimitless A.lowerLimit A.upperLimit
    · rfl
    · exfalso
      unfold Interval.intersects at h
      rw [h1, hc] at h
      simp at h
  obtain ⟨u, hu⟩ := lesser_of_upper_finite A B h1
  rcases greater_of_lower_shape A B with ⟨l, hl⟩ | hl
  · have hcond : u < l ∨ (u = l ∧
        (!A.lesserOfUpperIncludedInUnion B) = (!A.greaterOfLowerIncludedInUnion B)) := by
      rcases lt_trichotomy l u with hlt | heq | hgt
      · exfalso
        unfold Interval.intersects at h
        rw [h1, h2, hl, hu] at h
        simp [LimitValue.pcmp, LimitValue.pcmpWith, intPcmp, hlt] at h
      · refine Or.inr ⟨heq.symm, ?_⟩
        have hflag : A.lesserOfUpperIncludedInUnion B =
            A.greaterOfLowerIncludedInUnion B := by
          unfold Interval.lesserOfUpperIncludedInUnion
            Interval.greaterOfLowerIncludedInUnion
          rw [hu, hl, heq]
        rw [hflag]
      · exact Or.inl hgt
    have hgap : A.gap B =
        some ⟨⟨!A.lesserOfUpperIncludedInUnion B, true, .limit u⟩,
          ⟨!A.greaterOfLowerIncludedInUnion B, false, .limit l⟩⟩ := by
      unfold Interval.gap Interval.newOfSameType
      rw [h]
      simp only [Bool.false_eq_true, if_false]
      rw [hu, hl]
      exact newWith_limit_eq u l _ _ hcond
    exact ⟨_, hgap,
      by simp only [hu, Interval.lowerLimit, IntervalLimit.getValue],
      by simp only [hl, Interval.upperLimit, IntervalLimit.getValue],
      by simp only [Interval.includesLowerLimit, IntervalLimit.isClosed,
        Interval.lesserOfUpperIncludedInUnion],
      by simp only [Interval.includesUpperLimit, IntervalLimit.isClosed,
        Interval.greaterOfLowerIncludedInUnion]⟩
  · exfalso
    unfold Interval.intersects at h
    rw [h1, h2, hl, hu] at h
    simp [LimitValue.pcmp, LimitValue.pcmpWith] at h

/-- Witness for C4's general part at `[1,3]` and `[5,7]`. -/
theorem C4_gap_between_disjoint_witness :
    ∃ g : Interval Int,
      Interval.gap ⟨⟨true, true, .limit 1⟩, ⟨true, false, .limit 3⟩⟩
          ⟨⟨true, true, .limit 5⟩, ⟨true, false, .limit 7⟩⟩ = some g ∧
        g.lowerLimit = Interval.lesserOfUpperLimits
          ⟨⟨true, true, .limit 1⟩, ⟨true, false, .limit 3⟩⟩
          ⟨⟨true, true, .limit 5⟩, ⟨true, false, .limit 7⟩⟩ ∧
        g.upperLimit = Interval.greaterOfLowerLimits
          ⟨⟨true, true, .limit 1⟩, ⟨true, false, .limit 3⟩⟩
          ⟨⟨true, true, .limit 5⟩, ⟨true, false, .limit 7⟩⟩ ∧
        g.includesLowerLimit =
          !(Interval.includes ⟨⟨true, true, .limit 1⟩, ⟨true, false, .limit 3⟩⟩
              (Interval.lesserOfUpperLimits
                ⟨⟨true, true, .limit 1⟩, ⟨true, false, .limit 3⟩⟩
                ⟨⟨true, true, .limit 5⟩, ⟨true, false, .limit 7⟩⟩)
            || Interval.includes ⟨⟨true, true, .limit 5⟩, ⟨true, false, .limit 7⟩⟩
              (Interval.lesserOfUpperLimits
                ⟨⟨true, true, .limit 1⟩, ⟨true, false, .limit 3⟩⟩
                ⟨⟨true, true, .limit 5⟩, ⟨true, false, .limit 7⟩⟩)) ∧
        g.includesUpperLimit =
          !(Interval.includes ⟨⟨true, true, .limit 1⟩, ⟨true, false, .limit 3⟩⟩
              (Interval.greaterOfLowerLimits
                ⟨⟨true, true, .limit 1⟩, ⟨true, false, .limit 3⟩⟩
                ⟨⟨true, true, .limit 5⟩, ⟨true, false, .limit 7⟩⟩)
            || Interval.includes ⟨⟨true, true, .limit 5⟩, ⟨true, false, .limit 7⟩⟩
              (Interval.greaterOfLowerLimits
                ⟨⟨true, true, .limit 1⟩, ⟨true, false, .limit 3⟩⟩
                ⟨⟨true, true, .limit 5⟩, ⟨true, false, .limit 7⟩⟩)) :=
  C4_gap_between_disjoint.2 ⟨⟨true, true, .limit 1⟩, ⟨true, false, .limit 3⟩⟩
    ⟨⟨true, true, .limit 5⟩, ⟨true, false, .limit 7⟩⟩ (by decide)

end Intervals
